import Mathlib

/-!
Shallow embedding of src/middleware/auth.js from express-openid-connect.

The file models the router-building function exported by the module: the
optional appSession mount, the context middleware, the login/logout routes,
the callback route pipeline (exchange middleware, callback extension point,
final redirect handler) and the required-auth gate.  External collaborators
(the OIDC client, the transient cookie store, the once-guard from the cb
package) are modelled at their interfaces as the spec describes them.
-/

namespace ExpressOpenidConnect

/-- Mapping of claim names to values, as produced by tokenSet.claims(). -/
abbrev ClaimsMap := List (String × String)

/-- Token set returned by a successful code/token exchange. -/
structure TokenSet where
  claims : ClaimsMap
deriving Repr, DecidableEq

/-- Parsed authorization-response parameters (client.callbackParams result). -/
abbrev CallbackParams := List (String × String)

/-- Errors passed to the express continuation.  createError.BadRequest gives
the 400-class branch; every other thrown value is other. -/
inductive JsError where
  | badRequest (msg : String)
  | other (msg : String)
deriving Repr, DecidableEq

/-- Truthiness of an optional string config value under JavaScript rules:
undefined and the empty string are falsy. -/
def jsTruthyStr : Option String → Bool
  | none => false
  | some s => !s.isEmpty

/-- The JavaScript expression v or-else d on an optional string: undefined
and the empty string both fall through to the default. -/
def jsOrStr (v : Option String) (d : String) : String :=
  match v with
  | some s => if s.isEmpty then d else s
  | none => d

/-- Line 13: path when its first character is a slash, otherwise a slash is
prepended.  path.split(..)[0] on the empty string is undefined, which is not
the slash character, so the empty string gets the slash prepended. -/
def enforceLeadingSlash (path : String) : String :=
  if path.data.head? = some '/' then path else "/" ++ path

/-- An incoming request, abstracted to what the gate predicate can inspect. -/
structure Request where
  path : String
deriving Repr, DecidableEq

/-- The required config value: falsy, a predicate function, or any other
truthy value (lines 123 to 133 branch on exactly these three shapes). -/
inductive RequiredConfig where
  | off
  | pred (f : Request → Bool)
  | onVal

/-- HTTP method of a registered route. -/
inductive HttpMethod where
  | get
  | post
deriving Repr, DecidableEq

/-- The configuration surface consumed by the router builder. -/
structure Config where
  appSessionSecret : Option String
  appSessionName : String
  baseURL : String
  routes : Bool
  loginPath : String
  logoutPath : String
  redirectUriPath : String
  response_mode : Option String
  response_type : String
  identityClaimFilter : List String
  legacySameSiteCookie : Bool
  required : RequiredConfig

/-- Line 72: post exactly when the configured response_mode is form_post,
get for every other value (including an absent response_mode). -/
def callbackMethod (response_mode : Option String) : HttpMethod :=
  if response_mode = some "form_post" then HttpMethod.post else HttpMethod.get

/-- Line 105: delete identityClaims[claim] for one claim name, on the
association-list representation of the claims object. -/
def deleteClaim (claims : ClaimsMap) (name : String) : ClaimsMap :=
  claims.filter (fun p => p.1 != name)

/-- Lines 104 to 106: config.identityClaimFilter.forEach deleting each
listed claim name from the claims mapping in order. -/
def filterIdentityClaims (identityClaimFilter : List String) (claims : ClaimsMap) : ClaimsMap :=
  identityClaimFilter.foldl deleteClaim claims

/-- Per-request state visible to the callback route: the three transient
cookies, a read counter per transient name, and the session projection
req[appSessionName].claims. -/
structure CallbackState where
  nonceCookie : Option String
  stateCookie : Option String
  returnToCookie : Option String
  nonceReads : Nat
  stateReads : Nat
  returnToReads : Nat
  sessionClaims : Option ClaimsMap
deriving Repr, DecidableEq

/-- Modelled from the spec: transientHandler.getOnce (lib/transientHandler
is not under src) atomically returns the stored nonce value and clears its
backing cookie; the read is counted for the consumption bookkeeping. -/
def getOnceNonce (s : CallbackState) : Option String × CallbackState :=
  (s.nonceCookie, { s with nonceCookie := none, nonceReads := s.nonceReads + 1 })

/-- Modelled from the spec: getOnce for the state transient entry. -/
def getOnceState (s : CallbackState) : Option String × CallbackState :=
  (s.stateCookie, { s with stateCookie := none, stateReads := s.stateReads + 1 })

/-- Modelled from the spec: getOnce for the returnTo transient entry. -/
def getOnceReturnTo (s : CallbackState) : Option String × CallbackState :=
  (s.returnToCookie, { s with returnToCookie := none, returnToReads := s.returnToReads + 1 })

/-- Interface of the external OIDC client for one fixed incoming request:
the outcome of client.callbackParams(req), and the outcome of
client.callback as a function of the parsed params and the expected nonce
and state retrieved from the transient store. -/
structure OidcClient where
  callbackParams : Except String CallbackParams
  callback : CallbackParams → Option String → Option String → Except String TokenSet

/-- One attempted invocation of the express continuation. -/
inductive NextCall where
  | ok
  | err (e : JsError)
deriving Repr, DecidableEq

/-- Modelled from the spec: the single-invocation guard cb(next).once()
(line 81) lets only the first attempted invocation reach the real
continuation; later attempts are no-ops. -/
def onceGuard (attempts : List NextCall) : List NextCall :=
  attempts.take 1

/-- Lines 80 to 115, the exchange middleware of the callback route, as the
ordered list of attempted continuation invocations plus the state update.
downstreamThrow models the downstream chain throwing synchronously back
through the next() call on line 111, which the outer catch then feeds to
next(err) a second time. -/
def exchangeMiddleware (cfg : Config) (client : OidcClient)
    (downstreamThrow : Option String) (s : CallbackState) :
    List NextCall × CallbackState :=
  match client.callbackParams with
  | Except.error m => ([NextCall.err (JsError.badRequest m)], s)
  | Except.ok params =>
    let r1 := getOnceNonce s
    let r2 := getOnceState r1.2
    match client.callback params r1.1 r2.1 with
    | Except.error m => ([NextCall.err (JsError.badRequest m)], r2.2)
    | Except.ok tokenSet =>
      let s3 :=
        if jsTruthyStr cfg.appSessionSecret then
          { r2.2 with
            sessionClaims :=
              some (filterIdentityClaims cfg.identityClaimFilter tokenSet.claims) }
        else r2.2
      match downstreamThrow with
      | none => ([NextCall.ok], s3)
      | some m => ([NextCall.ok, NextCall.err (JsError.other m)], s3)

/-- Behaviour of the config.handleCallback extension point (line 116): pass
through to the next handler, fail with an error, or end the response. -/
inductive HandlerOutcome where
  | callNext
  | callNextErr (msg : String)
  | endResponse
deriving Repr, DecidableEq

/-- Outcome of the whole callback route for one request. -/
inductive RouteResult where
  | redirect (target : String)
  | errorOut (e : JsError)
  | handled
deriving Repr, DecidableEq

/-- Lines 117 to 120, the final handler: getOnce the returnTo entry and
redirect to it, or to config.baseURL when the retrieved value is falsy. -/
def finalHandler (cfg : Config) (s : CallbackState) : RouteResult × CallbackState :=
  let r := getOnceReturnTo s
  (RouteResult.redirect (jsOrStr r.1 cfg.baseURL), r.2)

/-- The callback route pipeline (lines 76 to 121): run the exchange
middleware, follow the first effective continuation call, then the
extension point, then the final handler.  An error handed to next skips the
remaining route handlers and goes to the framework error chain. -/
def runCallbackRoute (cfg : Config) (client : OidcClient)
    (handleCallback : HandlerOutcome) (s : CallbackState) :
    RouteResult × CallbackState :=
  let r := exchangeMiddleware cfg client none s
  match (onceGuard r.1).head? with
  | some NextCall.ok =>
    match handleCallback with
    | HandlerOutcome.callNext => finalHandler cfg r.2
    | HandlerOutcome.callNextErr m => (RouteResult.errorOut (JsError.other m), r.2)
    | HandlerOutcome.endResponse => (RouteResult.handled, r.2)
  | some (NextCall.err e) => (RouteResult.errorOut e, r.2)
  | none => (RouteResult.handled, r.2)

/-- The exchange (params parse plus client.callback) throws for the given
request state: either the parse fails, or the callback validation fails on
the stored nonce and state. -/
def exchangeThrows (client : OidcClient) (s : CallbackState) : Prop :=
  match client.callbackParams with
  | Except.error _ => True
  | Except.ok p => ∃ m, client.callback p s.nonceCookie s.stateCookie = Except.error m

/-- The exchange succeeds for the given request state. -/
def exchangeSucceeds (client : OidcClient) (s : CallbackState) : Prop :=
  ∃ p ts, client.callbackParams = Except.ok p ∧
    client.callback p s.nonceCookie s.stateCookie = Except.ok ts

/-- Observable events of the context middleware body (lines 40 to 52). -/
inductive CtxEvent where
  | requestContextCreated
  | nextCalledWithError (msg : String)
  | responseContextCreated
  | isAuthenticatedDefined
  | nextCalledOk
deriving Repr, DecidableEq

/-- Whether an event is an invocation of the continuation. -/
def isNextCall : CtxEvent → Bool
  | CtxEvent.nextCalledWithError _ => true
  | CtxEvent.nextCalledOk => true
  | _ => false

/-- Lines 40 to 52: build the RequestContext, await req.openid.load(), on
rejection call next(err) without returning, then build the ResponseContext,
define req.isAuthenticated, and call next() unconditionally. -/
def contextMiddleware (loadOutcome : Except String Unit) : List CtxEvent :=
  [CtxEvent.requestContextCreated]
    ++ (match loadOutcome with
        | Except.ok _ => []
        | Except.error m => [CtxEvent.nextCalledWithError m])
    ++ [CtxEvent.responseContextCreated, CtxEvent.isAuthenticatedDefined,
        CtxEvent.nextCalledOk]

/-- Per-request behaviour of the required gate (lines 123 to 133): whether
the authentication requirement is enforced, and how many times the
configured predicate is evaluated. -/
def gateOnRequest (required : RequiredConfig) (req : Request) : Bool × Nat :=
  match required with
  | RequiredConfig.off => (false, 0)
  | RequiredConfig.pred f => (f req, 1)
  | RequiredConfig.onVal => (true, 0)

/-- Items mounted on the returned router, in mounting order. -/
inductive MountedItem where
  | appSession
  | contextMiddleware
  | loginRoute (path : String)
  | logoutRoute (path : String)
  | callbackRoute (method : HttpMethod) (path : String)
  | requiredGate (conditional : Bool)

/-- Whether a mounted item is the callback route. -/
def isCallback : MountedItem → Bool
  | MountedItem.callbackRoute _ _ => true
  | _ => false

/-- Whether a mounted item is the required-auth gate. -/
def isGate : MountedItem → Bool
  | MountedItem.requiredGate _ => true
  | _ => false

/-- The router built by the exported function (lines 24 to 139): appSession
only under a truthy secret, the context middleware, login and logout routes
only under config.routes, the single callback route, and the gate in one of
its three shapes. -/
def buildRouter (cfg : Config) : List MountedItem :=
  (if jsTruthyStr cfg.appSessionSecret then [MountedItem.appSession] else [])
    ++ [MountedItem.contextMiddleware]
    ++ (if cfg.routes then
          [MountedItem.loginRoute (enforceLeadingSlash cfg.loginPath),
           MountedItem.logoutRoute (enforceLeadingSlash cfg.logoutPath)]
        else [])
    ++ [MountedItem.callbackRoute (callbackMethod cfg.response_mode)
          (enforceLeadingSlash cfg.redirectUriPath)]
    ++ (match cfg.required with
        | RequiredConfig.off => []
        | RequiredConfig.pred _ => [MountedItem.requiredGate true]
        | RequiredConfig.onVal => [MountedItem.requiredGate false])

/-- Concrete configuration used by the witnesses. -/
def exCfg : Config :=
  { appSessionSecret := some "keyboardcat"
    appSessionName := "identity"
    baseURL := "https://app.example.org"
    routes := true
    loginPath := "login"
    logoutPath := "logout"
    redirectUriPath := "callback"
    response_mode := none
    response_type := "id_token"
    identityClaimFilter := ["aud", "iss"]
    legacySameSiteCookie := true
    required := RequiredConfig.onVal }

/-- Concrete request state with all three transient cookies set. -/
def exState : CallbackState :=
  { nonceCookie := some "N1"
    stateCookie := some "S1"
    returnToCookie := some "/dashboard"
    nonceReads := 0
    stateReads := 0
    returnToReads := 0
    sessionClaims := none }

/-- Concrete request state whose stored returnTo value is the empty string. -/
def exEmptyReturnState : CallbackState :=
  { exState with returnToCookie := some "" }

/-- Concrete token set with two claims. -/
def exTokens : TokenSet :=
  { claims := [("sub", "u1"), ("aud", "client-1"), ("email", "a@b.com")] }

/-- Concrete client whose callback validation rejects (state mismatch). -/
def exFailClient : OidcClient :=
  { callbackParams := Except.ok [("code", "abc"), ("state", "WRONG")]
    callback := fun _ _ _ => Except.error "state mismatch" }

/-- Concrete client whose exchange succeeds with exTokens. -/
def exOkClient : OidcClient :=
  { callbackParams := Except.ok [("code", "abc"), ("state", "S1")]
    callback := fun _ _ _ => Except.ok exTokens }

/-- Concrete client whose callbackParams parse throws. -/
def exParseFailClient : OidcClient :=
  { callbackParams := Except.error "checks.state argument is missing"
    callback := fun _ _ _ => Except.error "unreachable" }

/-- The witness configuration with the required gate switched off. -/
def exCfgOff : Config := { exCfg with required := RequiredConfig.off }

/-- The witness configuration with no session secret. -/
def exCfgNoSecret : Config := { exCfg with appSessionSecret := none }

/-! Theorems -/

/-- Helper: the forEach of deletions equals one filter keeping the claims
whose name is not in the exclusion list. -/
theorem filterIdentityClaims_eq_filter (fs : List String) (claims : ClaimsMap) :
    filterIdentityClaims fs claims = claims.filter (fun p => !fs.contains p.1) := by
  induction fs generalizing claims with
  | nil => simp [filterIdentityClaims]
  | cons f fs ih =>
    show filterIdentityClaims fs (deleteClaim claims f) = _
    rw [ih, deleteClaim, List.filter_filter]
    congr 1
    funext p
    by_cases hp : p.1 = f <;> simp [List.contains_cons, Bool.and_comm, bne, hp]

/-- Helper: membership in the filtered claims mapping. -/
theorem mem_filterIdentityClaims (fs : List String) (claims : ClaimsMap)
    (p : String × String) :
    p ∈ filterIdentityClaims fs claims ↔ p ∈ claims ∧ p.1 ∉ fs := by
  rw [filterIdentityClaims_eq_filter, List.mem_filter]
  simp

/-- C1: whenever callback-parameter parsing or the callback validation of
the OIDC client throws, the callback route fails with a BadRequest
(400-class) error and the session projection is exactly what it was before
the request, so no session cookie is produced. -/
theorem callbackFailure_no_session (cfg : Config) (client : OidcClient)
    (h : HandlerOutcome) (s : CallbackState) (hfail : exchangeThrows client s) :
    (∃ m, (runCallbackRoute cfg client h s).1 = RouteResult.errorOut (JsError.badRequest m)) ∧
    (runCallbackRoute cfg client h s).2.sessionClaims = s.sessionClaims := by
  unfold exchangeThrows at hfail
  cases hcp : client.callbackParams with
  | error m =>
    refine ⟨⟨m, ?_⟩, ?_⟩ <;> simp [runCallbackRoute, exchangeMiddleware, hcp, onceGuard]
  | ok p =>
    rw [hcp] at hfail
    obtain ⟨m, hm⟩ := hfail
    refine ⟨⟨m, ?_⟩, ?_⟩ <;>
      simp [runCallbackRoute, exchangeMiddleware, hcp, hm, getOnceNonce, getOnceState,
        onceGuard]

/-- C1 witness: a state-mismatch rejection at a concrete request. -/
theorem callbackFailure_no_session_witness :
    (∃ m, (runCallbackRoute exCfg exFailClient HandlerOutcome.callNext exState).1 =
      RouteResult.errorOut (JsError.badRequest m)) ∧
    (runCallbackRoute exCfg exFailClient HandlerOutcome.callNext exState).2.sessionClaims =
      exState.sessionClaims :=
  callbackFailure_no_session exCfg exFailClient HandlerOutcome.callNext exState
    ⟨"state mismatch", rfl⟩

/-- C2 counterexample: on a failed exchange the route errors out and the
returnTo transient entry has been read zero times, not exactly once, so the
claim that all three entries are consumed on every outcome is false. -/
theorem transient_reads_counterexample :
    (runCallbackRoute exCfg exFailClient HandlerOutcome.callNext exState).1 =
      RouteResult.errorOut (JsError.badRequest "state mismatch") ∧
    (runCallbackRoute exCfg exFailClient HandlerOutcome.callNext exState).2.returnToReads
      = 0 ∧
    ¬ (runCallbackRoute exCfg exFailClient HandlerOutcome.callNext exState).2.returnToReads
      = 1 := by
  refine ⟨rfl, rfl, by decide⟩

/-- C2 amended: nonce and state are each consumed exactly once whenever
callback-parameter parsing succeeds, regardless of the exchange outcome,
and are not consumed at all when the parse throws; returnTo is consumed
exactly once on the requests that reach the final redirect handler and is
not consumed on any other outcome. -/
theorem transient_reads_amended (cfg : Config) (client : OidcClient)
    (h : HandlerOutcome) (s : CallbackState) :
    ((∃ p, client.callbackParams = Except.ok p) →
      (runCallbackRoute cfg client h s).2.nonceReads = s.nonceReads + 1 ∧
      (runCallbackRoute cfg client h s).2.stateReads = s.stateReads + 1) ∧
    ((∃ m, client.callbackParams = Except.error m) →
      (runCallbackRoute cfg client h s).2.nonceReads = s.nonceReads ∧
      (runCallbackRoute cfg client h s).2.stateReads = s.stateReads) ∧
    ((∃ t, (runCallbackRoute cfg client h s).1 = RouteResult.redirect t) →
      (runCallbackRoute cfg client h s).2.returnToReads = s.returnToReads + 1) ∧
    ((∀ t, (runCallbackRoute cfg client h s).1 ≠ RouteResult.redirect t) →
      (runCallbackRoute cfg client h s).2.returnToReads = s.returnToReads) := by
  cases hcp : client.callbackParams with
  | error m =>
    refine ⟨?_, ?_, ?_, ?_⟩ <;>
      simp [runCallbackRoute, exchangeMiddleware, hcp, onceGuard]
  | ok p =>
    cases hcb : client.callback p s.nonceCookie s.stateCookie with
    | error m =>
      refine ⟨?_, ?_, ?_, ?_⟩ <;>
        simp [runCallbackRoute, exchangeMiddleware, hcp, hcb, getOnceNonce, getOnceState,
          onceGuard]
    | ok ts =>
      cases hsec : jsTruthyStr cfg.appSessionSecret <;>
        cases h <;>
          refine ⟨?_, ?_, ?_, ?_⟩ <;>
            simp [runCallbackRoute, exchangeMiddleware, hcp, hcb, hsec, getOnceNonce,
              getOnceState, getOnceReturnTo, onceGuard, finalHandler]

/-- C2 witness: the amended statement at a successful exchange and at a
request whose parameter parse throws. -/
theorem transient_reads_amended_witness :
    ((runCallbackRoute exCfg exOkClient HandlerOutcome.callNext exState).2.nonceReads =
      exState.nonceReads + 1 ∧
     (runCallbackRoute exCfg exOkClient HandlerOutcome.callNext exState).2.stateReads =
      exState.stateReads + 1) ∧
    (runCallbackRoute exCfg exOkClient HandlerOutcome.callNext exState).2.returnToReads =
      exState.returnToReads + 1 ∧
    ((runCallbackRoute exCfg exParseFailClient HandlerOutcome.callNext exState).2.nonceReads =
      exState.nonceReads ∧
     (runCallbackRoute exCfg exParseFailClient HandlerOutcome.callNext exState).2.stateReads =
      exState.stateReads) ∧
    (runCallbackRoute exCfg exParseFailClient HandlerOutcome.callNext exState).2.returnToReads =
      exState.returnToReads :=
  ⟨(transient_reads_amended exCfg exOkClient HandlerOutcome.callNext exState).1 ⟨_, rfl⟩,
   (transient_reads_amended exCfg exOkClient HandlerOutcome.callNext exState).2.2.1
     ⟨"/dashboard", rfl⟩,
   (transient_reads_amended exCfg exParseFailClient HandlerOutcome.callNext exState).2.1
     ⟨_, rfl⟩,
   (transient_reads_amended exCfg exParseFailClient HandlerOutcome.callNext exState).2.2.2
     (fun _ ht => RouteResult.noConfusion ht)⟩

/-- C3: the continuation of the exchange middleware passes through the
single-invocation guard exactly once on every outcome, and in the scenario
where both the success path and the error path attempt an invocation (the
downstream chain throws back through next) there are two attempts, of
which the guard lets through only the first. -/
theorem nextGuard_once (cfg : Config) (client : OidcClient)
    (d : Option String) (s : CallbackState) :
    (onceGuard (exchangeMiddleware cfg client d s).1).length = 1 ∧
    (exchangeSucceeds client s →
      ∀ m, d = some m → (exchangeMiddleware cfg client d s).1.length = 2) := by
  constructor
  · cases hcp : client.callbackParams with
    | error m => simp [exchangeMiddleware, hcp, onceGuard]
    | ok p =>
      cases hcb : client.callback p s.nonceCookie s.stateCookie with
      | error m =>
        simp [exchangeMiddleware, hcp, hcb, getOnceNonce, getOnceState, onceGuard]
      | ok ts =>
        cases d <;>
          simp [exchangeMiddleware, hcp, hcb, getOnceNonce, getOnceState, onceGuard]
  · rintro ⟨p, ts, hcp, hcb⟩ m rfl
    simp [exchangeMiddleware, hcp, hcb, getOnceNonce, getOnceState]

/-- C3 witness: a successful exchange whose downstream chain throws makes
two invocation attempts, and the guard lets exactly one through. -/
theorem nextGuard_once_witness :
    (onceGuard (exchangeMiddleware exCfg exOkClient (some "downstream boom") exState).1).length
      = 1 ∧
    (exchangeMiddleware exCfg exOkClient (some "downstream boom") exState).1.length = 2 :=
  ⟨(nextGuard_once exCfg exOkClient (some "downstream boom") exState).1,
   (nextGuard_once exCfg exOkClient (some "downstream boom") exState).2
     ⟨[("code", "abc"), ("state", "S1")], exTokens, rfl, rfl⟩ "downstream boom" rfl⟩

/-- C4: claim filtering is complete and idempotent: no excluded name is in
the filtered mapping, every non-excluded claim of the token set is kept,
filtering an already-filtered mapping changes nothing, and on a successful
callback with session persistence enabled the session projection holds
exactly the filtered claims of the token set. -/
theorem filterIdentityClaims_spec (fs : List String) (claims : ClaimsMap) :
    (∀ name, name ∈ fs → ∀ v, (name, v) ∉ filterIdentityClaims fs claims) ∧
    (∀ name v, (name, v) ∈ claims → name ∉ fs → (name, v) ∈ filterIdentityClaims fs claims) ∧
    filterIdentityClaims fs (filterIdentityClaims fs claims) = filterIdentityClaims fs claims ∧
    (∀ (cfg : Config) (client : OidcClient) (h : HandlerOutcome) (s : CallbackState)
        (q : CallbackParams) (ts : TokenSet),
      client.callbackParams = Except.ok q →
      client.callback q s.nonceCookie s.stateCookie = Except.ok ts →
      jsTruthyStr cfg.appSessionSecret = true →
      (runCallbackRoute cfg client h s).2.sessionClaims =
        some (filterIdentityClaims cfg.identityClaimFilter ts.claims)) := by
  refine ⟨?_, ?_, ?_, ?_⟩
  · intro name hname v hmem
    rw [mem_filterIdentityClaims] at hmem
    exact hmem.2 hname
  · intro name v hmem hnot
    rw [mem_filterIdentityClaims]
    exact ⟨hmem, hnot⟩
  · rw [filterIdentityClaims_eq_filter, filterIdentityClaims_eq_filter, List.filter_filter]
    simp
  · intro cfg client h s q ts hcp hcb hsec
    cases h <;>
      simp [runCallbackRoute, exchangeMiddleware, hcp, hcb, hsec, getOnceNonce,
        getOnceState, getOnceReturnTo, onceGuard, finalHandler]

/-- C4 witness: the concrete exclusion list drops aud, keeps sub, is
idempotent, and is what the successful callback stores in the session. -/
theorem filterIdentityClaims_spec_witness :
    ("aud", "client-1") ∉ filterIdentityClaims ["aud", "iss"] exTokens.claims ∧
    ("sub", "u1") ∈ filterIdentityClaims ["aud", "iss"] exTokens.claims ∧
    filterIdentityClaims ["aud", "iss"] (filterIdentityClaims ["aud", "iss"] exTokens.claims) =
      filterIdentityClaims ["aud", "iss"] exTokens.claims ∧
    (runCallbackRoute exCfg exOkClient HandlerOutcome.callNext exState).2.sessionClaims =
      some (filterIdentityClaims exCfg.identityClaimFilter exTokens.claims) :=
  ⟨(filterIdentityClaims_spec ["aud", "iss"] exTokens.claims).1 "aud" (by decide) "client-1",
   (filterIdentityClaims_spec ["aud", "iss"] exTokens.claims).2.1 "sub" "u1" (by decide)
     (by decide),
   (filterIdentityClaims_spec ["aud", "iss"] exTokens.claims).2.2.1,
   (filterIdentityClaims_spec exCfg.identityClaimFilter exTokens.claims).2.2.2 exCfg
     exOkClient HandlerOutcome.callNext exState [("code", "abc"), ("state", "S1")] exTokens
     rfl rfl rfl⟩

/-- C5: the callback method is post exactly when the configured
response_mode is form_post and get for every other value, and the router
registers exactly one callback route, carrying that method. -/
theorem callbackMethod_spec :
    (∀ rm : Option String, callbackMethod rm = HttpMethod.post ↔ rm = some "form_post") ∧
    (∀ cfg : Config, (buildRouter cfg).filter isCallback =
      [MountedItem.callbackRoute (callbackMethod cfg.response_mode)
        (enforceLeadingSlash cfg.redirectUriPath)]) := by
  constructor
  · intro rm
    unfold callbackMethod
    by_cases h : rm = some "form_post" <;> simp [h]
  · intro cfg
    unfold buildRouter
    cases hsec : jsTruthyStr cfg.appSessionSecret <;>
      cases hr : cfg.routes <;>
        cases hreq : cfg.required <;>
          simp [isCallback, List.filter_append]

/-- C5 witness: form_post gives post, and the witness configuration
registers the single get callback route. -/
theorem callbackMethod_spec_witness :
    callbackMethod (some "form_post") = HttpMethod.post ∧
    (buildRouter exCfg).filter isCallback =
      [MountedItem.callbackRoute HttpMethod.get "/callback"] :=
  ⟨(callbackMethod_spec.1 (some "form_post")).mpr rfl,
   callbackMethod_spec.2 exCfg⟩

/-- C6 counterexample: a returnTo value was stored, namely the empty
string, yet the redirect target is the base URL rather than the retrieved
value, because line 118 uses the or-else operator on a falsy string. -/
theorem finalize_redirect_counterexample :
    exEmptyReturnState.returnToCookie = some "" ∧
    (runCallbackRoute exCfg exOkClient HandlerOutcome.callNext exEmptyReturnState).1 =
      RouteResult.redirect "https://app.example.org" ∧
    ¬ (runCallbackRoute exCfg exOkClient HandlerOutcome.callNext exEmptyReturnState).1 =
      RouteResult.redirect "" := by
  refine ⟨rfl, rfl, by decide⟩

/-- C6 amended: a request reaching the finalize step is redirected to the
retrieved returnTo value when that value is a nonempty string, and to the
configured base URL when no value was stored or the stored value is the
empty string. -/
theorem finalize_redirect_amended (cfg : Config) (client : OidcClient) (s : CallbackState)
    (hok : exchangeSucceeds client s) :
    (runCallbackRoute cfg client HandlerOutcome.callNext s).1 =
      RouteResult.redirect (jsOrStr s.returnToCookie cfg.baseURL) ∧
    (∀ r, s.returnToCookie = some r → r.isEmpty = false →
      (runCallbackRoute cfg client HandlerOutcome.callNext s).1 = RouteResult.redirect r) ∧
    ((s.returnToCookie = none ∨ s.returnToCookie = some "") →
      (runCallbackRoute cfg client HandlerOutcome.callNext s).1 =
        RouteResult.redirect cfg.baseURL) := by
  obtain ⟨p, ts, hcp, hcb⟩ := hok
  have hrun : (runCallbackRoute cfg client HandlerOutcome.callNext s).1 =
      RouteResult.redirect (jsOrStr s.returnToCookie cfg.baseURL) := by
    cases hsec : jsTruthyStr cfg.appSessionSecret <;>
      simp [runCallbackRoute, exchangeMiddleware, hcp, hcb, hsec, getOnceNonce,
        getOnceState, getOnceReturnTo, onceGuard, finalHandler]
  refine ⟨hrun, ?_, ?_⟩
  · intro r hr hre
    rw [hrun, hr]
    simp [jsOrStr, hre]
  · rintro (hr | hr) <;> rw [hrun, hr] <;> rfl

/-- C6 witness: the amended statement at a stored nonempty returnTo and at
a stored empty returnTo. -/
theorem finalize_redirect_amended_witness :
    (runCallbackRoute exCfg exOkClient HandlerOutcome.callNext exState).1 =
      RouteResult.redirect "/dashboard" ∧
    (runCallbackRoute exCfg exOkClient HandlerOutcome.callNext exEmptyReturnState).1 =
      RouteResult.redirect exCfg.baseURL :=
  ⟨(finalize_redirect_amended exCfg exOkClient exState ⟨_, _, rfl, rfl⟩).2.1
     "/dashboard" rfl rfl,
   (finalize_redirect_amended exCfg exOkClient exEmptyReturnState ⟨_, _, rfl, rfl⟩).2.2
     (Or.inr rfl)⟩

/-- C7: with a falsy required value no gate is mounted on the router; with
a predicate the requirement is enforced on a request exactly when the
predicate returns truthy, the predicate being evaluated once per request;
with any other truthy value the requirement is enforced on every request. -/
theorem required_gate_spec :
    (∀ cfg : Config, cfg.required = RequiredConfig.off →
      (buildRouter cfg).filter isGate = []) ∧
    (∀ (f : Request → Bool) (req : Request),
      gateOnRequest (RequiredConfig.pred f) req = (f req, 1)) ∧
    (∀ req : Request, gateOnRequest RequiredConfig.onVal req = (true, 0)) ∧
    (∀ req : Request, gateOnRequest RequiredConfig.off req = (false, 0)) := by
  refine ⟨?_, fun f req => rfl, fun req => rfl, fun req => rfl⟩
  intro cfg hoff
  unfold buildRouter
  rw [hoff]
  cases hsec : jsTruthyStr cfg.appSessionSecret <;>
    cases hr : cfg.routes <;>
      simp [isGate, List.filter_append]

/-- C7 witness: the three shapes at concrete configurations and requests. -/
theorem required_gate_spec_witness :
    (buildRouter exCfgOff).filter isGate = [] ∧
    gateOnRequest (RequiredConfig.pred (fun r => r.path == "/admin")) { path := "/admin" } =
      (true, 1) ∧
    gateOnRequest RequiredConfig.onVal { path := "/x" } = (true, 0) :=
  ⟨required_gate_spec.1 exCfgOff rfl,
   required_gate_spec.2.1 (fun r => r.path == "/admin") { path := "/admin" },
   required_gate_spec.2.2.1 { path := "/x" }⟩

/-- C8: without a truthy session secret the session projection is inert:
the appSession middleware is not mounted, and the callback route leaves the
session claims untouched on every client outcome. -/
theorem inert_session_spec (cfg : Config)
    (hsecret : jsTruthyStr cfg.appSessionSecret = false) :
    MountedItem.appSession ∉ buildRouter cfg ∧
    (∀ (client : OidcClient) (h : HandlerOutcome) (s : CallbackState),
      (runCallbackRoute cfg client h s).2.sessionClaims = s.sessionClaims) := by
  constructor
  · cases hr : cfg.routes <;> cases hreq : cfg.required <;>
      simp [buildRouter, hsecret, hr, hreq]
  · intro client h s
    cases hcp : client.callbackParams with
    | error m => simp [runCallbackRoute, exchangeMiddleware, hcp, onceGuard]
    | ok p =>
      cases hcb : client.callback p s.nonceCookie s.stateCookie with
      | error m =>
        simp [runCallbackRoute, exchangeMiddleware, hcp, hcb, getOnceNonce, getOnceState,
          onceGuard]
      | ok ts =>
        cases h <;>
          simp [runCallbackRoute, exchangeMiddleware, hcp, hcb, hsecret, getOnceNonce,
            getOnceState, getOnceReturnTo, onceGuard, finalHandler]

/-- C8 witness: the secretless configuration mounts no appSession and a
successful exchange still leaves the session claims unchanged. -/
theorem inert_session_spec_witness :
    MountedItem.appSession ∉ buildRouter exCfgNoSecret ∧
    (runCallbackRoute exCfgNoSecret exOkClient HandlerOutcome.callNext exState).2.sessionClaims =
      exState.sessionClaims :=
  ⟨(inert_session_spec exCfgNoSecret rfl).1,
   (inert_session_spec exCfgNoSecret rfl).2 exOkClient HandlerOutcome.callNext exState⟩

/-- C9: enforceLeadingSlash keeps a path whose first character is a slash,
prepends a slash to any other path, always yields a path beginning with a
slash, is idempotent, and sends the empty string to the single slash. -/
theorem enforceLeadingSlash_spec (p : String) :
    (p.data.head? = some '/' → enforceLeadingSlash p = p) ∧
    (p.data.head? ≠ some '/' → enforceLeadingSlash p = "/" ++ p) ∧
    (enforceLeadingSlash p).data.head? = some '/' ∧
    enforceLeadingSlash (enforceLeadingSlash p) = enforceLeadingSlash p ∧
    enforceLeadingSlash "" = "/" := by
  have hslash : ∀ q : String, ("/" ++ q).data.head? = some '/' := by
    intro q
    rw [String.data_append]
    rfl
  by_cases h : p.data.head? = some '/'
  · refine ⟨fun _ => ?_, fun hc => absurd h hc, ?_, ?_, ?_⟩ <;>
      simp [enforceLeadingSlash, h]
  · refine ⟨fun hc => absurd hc h, fun _ => ?_, ?_, ?_, ?_⟩ <;>
      simp [enforceLeadingSlash, h, hslash]

/-- C9 witness: a slashless path gets the slash prepended and a slashed
path is kept. -/
theorem enforceLeadingSlash_spec_witness :
    enforceLeadingSlash "callback" = "/" ++ "callback" ∧
    enforceLeadingSlash "/cb" = "/cb" :=
  ⟨(enforceLeadingSlash_spec "callback").2.1 (by decide),
   (enforceLeadingSlash_spec "/cb").1 (by decide)⟩

/-- C10: when the per-request load rejects, the context middleware calls
the continuation with the error and still continues: it builds the
response context, defines req.isAuthenticated, and calls the continuation
a second time without an error. -/
theorem context_load_error_continues (outcome : Except String Unit) (m : String)
    (hout : outcome = Except.error m) :
    contextMiddleware outcome =
      [CtxEvent.requestContextCreated, CtxEvent.nextCalledWithError m,
       CtxEvent.responseContextCreated, CtxEvent.isAuthenticatedDefined,
       CtxEvent.nextCalledOk] ∧
    ((contextMiddleware outcome).filter isNextCall) =
      [CtxEvent.nextCalledWithError m, CtxEvent.nextCalledOk] := by
  subst hout
  exact ⟨rfl, rfl⟩

/-- C10 witness: a concrete load rejection. -/
theorem context_load_error_continues_witness :
    contextMiddleware (Except.error "discovery failed") =
      [CtxEvent.requestContextCreated, CtxEvent.nextCalledWithError "discovery failed",
       CtxEvent.responseContextCreated, CtxEvent.isAuthenticatedDefined,
       CtxEvent.nextCalledOk] ∧
    ((contextMiddleware (Except.error "discovery failed")).filter isNextCall) =
      [CtxEvent.nextCalledWithError "discovery failed", CtxEvent.nextCalledOk] :=
  context_load_error_continues (Except.error "discovery failed") "discovery failed" rfl

end ExpressOpenidConnect
